import Mathlib

/-
Verification of the MixSplitR multi-backend identification and result-merging
pipeline.  The definitions below are a shallow embedding of the Python code in
mixsplitr_identify.py, mixsplitr_audio.py and mixsplitr_processing.py:
Python dicts holding optional string fields become structures of Option String,
Python truthiness of strings becomes strTruthy, floats become exact rationals,
and fallible calls become Option / Except values.
-/

namespace MixSplitR

/-- Python truthiness of an optional string: None and the empty string are falsy. -/
def strTruthy : Option String → Bool
  | none => false
  | some s => !(s == "")

/-- str.lower(), spelled on the character list so that it reduces in the kernel
(the core String.toLower is opaque to kernel reduction). -/
def strLower (s : String) : String :=
  String.mk (s.data.map Char.toLower)

/-- The inner normalize of strings_match (mixsplitr_identify.py): lowercase the
string and strip every character outside a-z, 0-9. -/
def normalize (s : String) : String :=
  String.mk ((strLower s).data.filter (fun c => c.isLower || c.isDigit))

/-- strings_match (mixsplitr_identify.py): case/punctuation-insensitive string
comparison; a falsy argument never matches. -/
def strings_match (s1 s2 : Option String) : Bool :=
  if !(strTruthy s1) || !(strTruthy s2) then false
  else normalize (s1.getD "") == normalize (s2.getD "")

/-- The acr_result dict built in the processing layer: artist, title, album. -/
structure AcrResult where
  artist : Option String := none
  title : Option String := none
  album : Option String := none
  deriving Repr, DecidableEq

/-- The mb_result dict (from AcoustID or Shazam): artist and title. -/
structure MbResult where
  artist : Option String := none
  title : Option String := none
  deriving Repr, DecidableEq

/-- The mb_enhanced dict from get_enhanced_metadata. -/
structure MbEnhanced where
  album : Option String := none
  label : Option String := none
  genres : List String := []
  release_date : Option String := none
  isrc : Option String := none
  deriving Repr, DecidableEq

/-- The itunes entry of external_meta (get_itunes_metadata). -/
structure ItunesMeta where
  genre : Option String := none
  year : Option String := none
  album : Option String := none
  deriving Repr, DecidableEq

/-- The deezer entry of external_meta (get_deezer_metadata). -/
structure DeezerMeta where
  genre : Option String := none
  year : Option String := none
  album : Option String := none
  bpm : Option Int := none
  deriving Repr, DecidableEq

/-- The lastfm entry of external_meta (get_lastfm_metadata). -/
structure LastfmMeta where
  tags : List String := []
  deriving Repr, DecidableEq

/-- The local_bpm entry of external_meta (detect_bpm_librosa output); the
confidence key defaults to 0.7 when absent, as in local_bpm.get of the source. -/
structure LocalBpm where
  bpm : Option Int := none
  confidence : ℚ := 7/10
  deriving Repr, DecidableEq

/-- The external_meta dict; a missing or empty sub-dict is modelled as none. -/
structure ExternalMeta where
  itunes : Option ItunesMeta := none
  deezer : Option DeezerMeta := none
  lastfm : Option LastfmMeta := none
  local_bpm : Option LocalBpm := none
  deriving Repr, DecidableEq

/-- One field of the merged record: an optional value with source attribution. -/
structure MergedField where
  value : Option String := none
  source : Option String := none
  deriving Repr, DecidableEq

/-- The genres field of the merged record: a list value with source attribution. -/
structure GenresField where
  value : List String := []
  source : Option String := none
  deriving Repr, DecidableEq

/-- The bpm field of the merged record; the librosa fallback branch adds its own
confidence key to the dict. -/
structure BpmField where
  value : Option Int := none
  source : Option String := none
  confidence : Option ℚ := none
  deriving Repr, DecidableEq

/-- The merged dict returned by merge_identification_results. -/
structure MergedRecord where
  artist : MergedField
  title : MergedField
  album : MergedField
  label : MergedField
  genres : GenresField
  release_date : MergedField
  isrc : MergedField
  bpm : BpmField
  confidence : ℚ
  agreement : String
  sources_used : List String
  sources_checked : ℕ
  deriving Repr, DecidableEq

/-- acr_result.get of artist (None when the dict is absent). -/
def acrArtist (acr_result : Option AcrResult) : Option String :=
  acr_result.bind (fun r => r.artist)

/-- acr_result.get of title. -/
def acrTitle (acr_result : Option AcrResult) : Option String :=
  acr_result.bind (fun r => r.title)

/-- acr_result.get of album. -/
def acrAlbum (acr_result : Option AcrResult) : Option String :=
  acr_result.bind (fun r => r.album)

/-- mb_result.get of artist. -/
def mbArtist (mb_result : Option MbResult) : Option String :=
  mb_result.bind (fun r => r.artist)

/-- mb_result.get of title. -/
def mbTitle (mb_result : Option MbResult) : Option String :=
  mb_result.bind (fun r => r.title)

/-- mb_enhanced.get of album. -/
def mbAlbum (mb_enhanced : Option MbEnhanced) : Option String :=
  mb_enhanced.bind (fun r => r.album)

/-- mb_enhanced.get of genres, defaulting to the empty list. -/
def mbGenres (mb_enhanced : Option MbEnhanced) : List String :=
  (mb_enhanced.map (fun r => r.genres)).getD []

/-- external_meta itunes genre. -/
def itunesGenre (external_meta : Option ExternalMeta) : Option String :=
  (external_meta.getD {}).itunes.bind (fun r => r.genre)

/-- external_meta itunes album. -/
def itunesAlbum (external_meta : Option ExternalMeta) : Option String :=
  (external_meta.getD {}).itunes.bind (fun r => r.album)

/-- external_meta deezer genre. -/
def deezerGenre (external_meta : Option ExternalMeta) : Option String :=
  (external_meta.getD {}).deezer.bind (fun r => r.genre)

/-- external_meta deezer album. -/
def deezerAlbum (external_meta : Option ExternalMeta) : Option String :=
  (external_meta.getD {}).deezer.bind (fun r => r.album)

/-- external_meta lastfm tags, defaulting to the empty list. -/
def lastfmTags (external_meta : Option ExternalMeta) : List String :=
  ((external_meta.getD {}).lastfm.map (fun r => r.tags)).getD []

/-- has_acr in merge_identification_results: the primary guess supplies a truthy
artist and a truthy title. -/
def hasAcr (acr_result : Option AcrResult) : Bool :=
  strTruthy (acrArtist acr_result) && strTruthy (acrTitle acr_result)

/-- has_mb in merge_identification_results: the secondary guess supplies a truthy
artist and a truthy title. -/
def hasMb (mb_result : Option MbResult) : Bool :=
  strTruthy (mbArtist mb_result) && strTruthy (mbTitle mb_result)

/-- has_itunes in merge_identification_results: external_meta.get of itunes is a
truthy (non-empty) dict. -/
def hasItunes (external_meta : Option ExternalMeta) : Bool :=
  (external_meta.getD {}).itunes.isSome

/-- has_deezer in merge_identification_results. -/
def hasDeezer (external_meta : Option ExternalMeta) : Bool :=
  (external_meta.getD {}).deezer.isSome

/-- has_lastfm in merge_identification_results. -/
def hasLastfm (external_meta : Option ExternalMeta) : Bool :=
  (external_meta.getD {}).lastfm.isSome

/-- sources_count in merge_identification_results: how many of the five sources
contributed. -/
def sourcesCount (has_acr has_mb has_itunes has_deezer has_lastfm : Bool) : ℕ :=
  (if has_acr then 1 else 0) + (if has_mb then 1 else 0) + (if has_itunes then 1 else 0)
    + (if has_deezer then 1 else 0) + (if has_lastfm then 1 else 0)

/-- sources_used in merge_identification_results: names appended in the fixed
order ACRCloud, MusicBrainz, iTunes, Deezer, Last.fm. -/
def sourcesUsed (has_acr has_mb has_itunes has_deezer has_lastfm : Bool) : List String :=
  (if has_acr then ["ACRCloud"] else []) ++ (if has_mb then ["MusicBrainz"] else [])
    ++ (if has_itunes then ["iTunes"] else []) ++ (if has_deezer then ["Deezer"] else [])
    ++ (if has_lastfm then ["Last.fm"] else [])

/-- The agreement / base-confidence classification of merge_identification_results,
before the min 0.99 clamp.  The agreement labels are the literal strings the code
stores: acr_only and mb_only are what the specification calls single_acr and
single_mb. -/
def classifyAgreement (has_acr has_mb artist_match title_match : Bool)
    (sources_count : ℕ) : String × ℚ :=
  if has_acr && has_mb then
    if artist_match && title_match then ("full", 90/100 + 25/1000 * ((sources_count : ℚ) - 2))
    else if artist_match || title_match then ("partial", 75/100 + 25/1000 * ((sources_count : ℚ) - 2))
    else ("conflict", 60/100)
  else if has_acr then ("acr_only", 75/100 + 5/100 * ((sources_count : ℚ) - 1))
  else if has_mb then ("mb_only", 70/100 + 5/100 * ((sources_count : ℚ) - 1))
  else ("none", 0)

/-- Artist/title merging: prefer the truthy ACRCloud value, else MusicBrainz. -/
def mergeNameField (acr mb : Option String) : MergedField :=
  if strTruthy acr then { value := acr, source := some "ACRCloud" }
  else if strTruthy mb then { value := mb, source := some "MusicBrainz" }
  else {}

/-- A backend album counts only when truthy and different from the literal
placeholder string Unknown Album. -/
def suppliesAlbum (a : Option String) : Bool :=
  strTruthy a && !(a.getD "" == "Unknown Album")

/-- Album merging chain of merge_identification_results. -/
def mergeAlbumField (mb_album acr_album itunes_album deezer_album : Option String) : MergedField :=
  if suppliesAlbum mb_album then { value := mb_album, source := some "MusicBrainz" }
  else if suppliesAlbum acr_album then { value := acr_album, source := some "ACRCloud" }
  else if strTruthy itunes_album then { value := itunes_album, source := some "iTunes" }
  else if strTruthy deezer_album then { value := deezer_album, source := some "Deezer" }
  else { value := some "Unknown Album", source := none }

/-- The membership test itunes_genre.lower() in the lowercased all_genres list. -/
def lowerMem (g : String) (gs : List String) : Bool :=
  gs.any (fun x => strLower x == strLower g)

/-- if not genre_source: genre_source = src  (Python falsy test on the string). -/
def pickSource (cur : Option String) (src : String) : Option String :=
  if cur.getD "" == "" then some src else cur

/-- One conditional append to the all_genres / genre_source accumulator. -/
def addGenre (st : List String × Option String) (g : String) (src : String) :
    List String × Option String :=
  if g != "" && !(lowerMem g st.1) then (st.1 ++ [g], pickSource st.2 src) else st

/-- The guarded append for an optional single-genre source (iTunes / Deezer):
a missing genre leaves the accumulator unchanged. -/
def addOptGenre (st : List String × Option String) (g : Option String) (src : String) :
    List String × Option String :=
  match g with
  | some g => addGenre st g src
  | none => st

/-- The all_genres / genre_source collection loop of merge_identification_results:
MusicBrainz genres wholesale, then iTunes, Deezer and the Last.fm tags each
guarded by a case-insensitive membership test. -/
def collectGenres (mb_genres : List String) (itunes_genre deezer_genre : Option String)
    (lastfm_tags : List String) : List String × Option String :=
  let st0 : List String × Option String :=
    if mb_genres.isEmpty then ([], none) else (mb_genres, some "MusicBrainz")
  let st1 := addOptGenre st0 itunes_genre "iTunes"
  let st2 := addOptGenre st1 deezer_genre "Deezer"
  lastfm_tags.foldl (fun st tag => addGenre st tag "Last.fm") st2

/-- One step of the seen/unique dedup loop: keep a truthy genre whose lowercase
form is unseen, recording the lowercase form. -/
def dedupStep (acc : List String × List String) (g : String) : List String × List String :=
  if g != "" && !(acc.2.contains (strLower g)) then (acc.1 ++ [g], acc.2 ++ [strLower g]) else acc

/-- The seen/unique dedup loop of merge_identification_results. -/
def dedupGenres (all_genres : List String) : List String :=
  (all_genres.foldl dedupStep ([], [])).1

/-- The genres block of merge_identification_results: collect, dedup, cap at 5,
and build the possibly plus-suffixed source string. -/
def mergeGenresField (mb_genres : List String) (itunes_genre deezer_genre : Option String)
    (lastfm_tags : List String) (sources_used : List String) : GenresField :=
  let st := collectGenres mb_genres itunes_genre deezer_genre lastfm_tags
  if st.1.isEmpty then {}
  else
    let unique := dedupGenres st.1
    let base := if st.2.getD "" == "" then "Unknown" else st.2.getD ""
    let source_str := if sources_used.length > 1 && unique.length > 1 then base ++ "+" else base
    { value := unique.take 5, source := some source_str }

/-- Release date chain: MusicBrainz, then iTunes year, then Deezer year. -/
def mergeReleaseDateField (mb_date itunes_year deezer_year : Option String) : MergedField :=
  if strTruthy mb_date then { value := mb_date, source := some "MusicBrainz" }
  else if strTruthy itunes_year then { value := itunes_year, source := some "iTunes" }
  else if strTruthy deezer_year then { value := deezer_year, source := some "Deezer" }
  else {}

/-- BPM block: a positive Deezer bpm wins; otherwise a truthy local (librosa)
estimate is used, carrying its own confidence. -/
def mergeBpmField (deezer_bpm : Option Int) (local_bpm : Option LocalBpm) : BpmField :=
  let b0 : BpmField :=
    match deezer_bpm with
    | some v => if v > 0 then { value := some v, source := some "Deezer" } else {}
    | none => {}
  if b0.value.getD 0 == 0 then
    match local_bpm with
    | some lb =>
      match lb.bpm with
      | some v =>
        if v != 0 then { value := some v, source := some "librosa", confidence := some lb.confidence }
        else b0
      | none => b0
    | none => b0
  else b0

/-- merge_identification_results (mixsplitr_identify.py): merge the primary
(ACRCloud) guess, the secondary (MusicBrainz via AcoustID or Shazam) guess, the
MusicBrainz enhanced metadata and the external enrichment bundle into one
confidence-scored record with per-field source attribution. -/
def merge_identification_results (acr_result : Option AcrResult) (mb_result : Option MbResult)
    (mb_enhanced : Option MbEnhanced) (external_meta : Option ExternalMeta) : MergedRecord :=
  let acr_artist := acrArtist acr_result
  let acr_title := acrTitle acr_result
  let acr_album := acrAlbum acr_result
  let mb_artist := mbArtist mb_result
  let mb_title := mbTitle mb_result
  let mb_album := mbAlbum mb_enhanced
  let mb_label := mb_enhanced.bind (fun r => r.label)
  let mb_genres := mbGenres mb_enhanced
  let mb_date := mb_enhanced.bind (fun r => r.release_date)
  let mb_isrc := mb_enhanced.bind (fun r => r.isrc)
  let em := external_meta.getD {}
  let itunes_genre := itunesGenre external_meta
  let itunes_year := em.itunes.bind (fun r => r.year)
  let itunes_album := itunesAlbum external_meta
  let deezer_genre := deezerGenre external_meta
  let deezer_year := em.deezer.bind (fun r => r.year)
  let deezer_album := deezerAlbum external_meta
  let deezer_bpm := em.deezer.bind (fun r => r.bpm)
  let lastfm_tags := lastfmTags external_meta
  let has_acr := hasAcr acr_result
  let has_mb := hasMb mb_result
  let has_itunes := hasItunes external_meta
  let has_deezer := hasDeezer external_meta
  let has_lastfm := hasLastfm external_meta
  let n := sourcesCount has_acr has_mb has_itunes has_deezer has_lastfm
  let used := sourcesUsed has_acr has_mb has_itunes has_deezer has_lastfm
  if !(has_acr || has_mb) then
    { artist := {}, title := {}, album := {}, label := {},
      genres := {}, release_date := {}, isrc := {}, bpm := {},
      confidence := 0, agreement := "none", sources_used := used, sources_checked := n }
  else
    let ac := classifyAgreement has_acr has_mb (strings_match acr_artist mb_artist)
      (strings_match acr_title mb_title) n
    { artist := mergeNameField acr_artist mb_artist,
      title := mergeNameField acr_title mb_title,
      album := mergeAlbumField mb_album acr_album itunes_album deezer_album,
      label := if strTruthy mb_label then { value := mb_label, source := some "MusicBrainz" } else {},
      genres := mergeGenresField mb_genres itunes_genre deezer_genre lastfm_tags used,
      release_date := mergeReleaseDateField mb_date itunes_year deezer_year,
      isrc := if strTruthy mb_isrc then { value := mb_isrc, source := some "MusicBrainz" } else {},
      bpm := mergeBpmField deezer_bpm em.local_bpm,
      confidence := min (99/100) ac.2,
      agreement := ac.1,
      sources_used := used,
      sources_checked := n }

/-- One AcoustID candidate as iterated in identify_with_acoustid:
(score, recording_id, title, artist). -/
structure AcoustIdCandidate where
  score : ℚ
  recording_id : String
  title : String
  artist : String
  deriving Repr, DecidableEq

/-- The dict identify_with_acoustid returns on a hit. -/
structure AcoustIdHit where
  artist : String
  title : String
  recording_id : String
  score : ℚ
  source : String
  deriving Repr, DecidableEq

/-- The result-processing loop of identify_with_acoustid (mixsplitr_identify.py):
scan the backend's candidates in order and return the first whose score is
strictly greater than 0.5, else None.  The surrounding I/O (fingerprinting,
temp-file handling, error printing) is elided; every error path of the Python
function also returns None. -/
def identify_with_acoustid_process (results : List AcoustIdCandidate) : Option AcoustIdHit :=
  match results with
  | [] => none
  | c :: rest =>
    if c.score > 1/2 then
      some { artist := c.artist, title := c.title, recording_id := c.recording_id,
             score := c.score, source := "acoustid" }
    else identify_with_acoustid_process rest

/-- The EDM octave-correction step of detect_bpm_librosa (mixsplitr_audio.py),
applied to the rounded integer tempo estimate: double below 70, halve (floor
division) above 180, otherwise unchanged. -/
def bpm_octave_correction (bpm : ℕ) : ℕ :=
  if bpm < 70 then bpm * 2
  else if bpm > 180 then bpm / 2
  else bpm

/-- The Shazam result dict as consumed by process_single_track. -/
structure ShazamResult where
  artist : String
  title : String
  deriving Repr, DecidableEq

/-- The parsed ACRCloud response as consumed by process_single_track: the
status.code field and the metadata.music list (artist of the first credited
artist, title, optional album name). -/
structure AcrMusic where
  artist : String
  title : String
  album : Option String
  deriving Repr, DecidableEq

/-- The decoded JSON response of recognizer.recognize_by_file. -/
structure AcrResponse where
  status_code : Int
  music : List AcrMusic
  deriving Repr, DecidableEq

/-- The identification outcome of process_single_track that later feeds
merge_identification_results: either a skip (with reason) or the pair of
primary/secondary guesses obtained from the backends. -/
inductive TrackOutcome where
  | skipped : String → TrackOutcome
  | identified : Option AcrResult → Option MbResult → TrackOutcome
  deriving Repr, DecidableEq

/-- The Shazam-then-AcoustID fallback chain in the else-branch of
process_single_track: Shazam is consulted first when enabled and available,
then AcoustID; each backend's own errors are already caught inside its adapter
(identify_with_shazam / identify_with_acoustid return None on failure). -/
def fallbackChain (shazam_enabled shazam_available : Bool) (shazam_result : Option ShazamResult)
    (acoustid_available : Bool) (acoustid_result : Option AcoustIdHit) : Option MbResult :=
  let sz := if shazam_enabled && shazam_available then shazam_result else none
  match sz with
  | some s => some { artist := some s.artist, title := some s.title }
  | none =>
    if acoustid_available then
      match acoustid_result with
      | some a => some { artist := some a.artist, title := some a.title }
      | none => none
    else none

/-- The identification phase of process_single_track (mixsplitr_processing.py,
commercial-primary mode).  chunk_len is len(chunk) (none when the chunk is
missing).  acr_call is the combined result of recognizer.recognize_by_file plus
json.loads: Except.error models a raised exception.  The source wraps this call
in no try/except, so the error is propagated unchanged; an Except.ok response
with a non-zero status code or empty music list falls into the
Shazam-then-AcoustID fallback chain.  File export, rate limiting and the
enrichment lookups that follow are elided. -/
def process_single_track_identification (chunk_len : Option ℕ)
    (acr_call : Except String AcrResponse)
    (shazam_enabled shazam_available : Bool) (shazam_result : Option ShazamResult)
    (acoustid_available : Bool) (acoustid_result : Option AcoustIdHit) :
    Except String TrackOutcome :=
  match chunk_len with
  | none => Except.ok (TrackOutcome.skipped "no_chunk")
  | some len =>
    if len < 10000 then Except.ok (TrackOutcome.skipped "too_short")
    else
      match acr_call with
      | Except.error e => Except.error e
      | Except.ok res =>
        if res.status_code == 0 then
          match res.music with
          | m :: _ =>
            let acr : AcrResult :=
              { artist := some m.artist, title := some m.title,
                album := some (m.album.getD "Unknown Album") }
            let mb : Option MbResult :=
              if acoustid_available then
                match acoustid_result with
                | some a => some { artist := some a.artist, title := some a.title }
                | none => none
              else none
            Except.ok (TrackOutcome.identified (some acr) mb)
          | [] =>
            Except.ok (TrackOutcome.identified none
              (fallbackChain shazam_enabled shazam_available shazam_result
                acoustid_available acoustid_result))
        else
          Except.ok (TrackOutcome.identified none
            (fallbackChain shazam_enabled shazam_available shazam_result
              acoustid_available acoustid_result))

/-- Helper: the confidence merge_identification_results assigns, as a function of
the agreement label and the source count. -/
def confFromClass (agreement : String) (n : ℕ) : ℚ :=
  if agreement == "full" then min (99/100) (90/100 + 25/1000 * ((n : ℚ) - 2))
  else if agreement == "partial" then min (99/100) (75/100 + 25/1000 * ((n : ℚ) - 2))
  else if agreement == "conflict" then min (99/100) (60/100)
  else if agreement == "acr_only" then min (99/100) (75/100 + 5/100 * ((n : ℚ) - 1))
  else if agreement == "mb_only" then min (99/100) (70/100 + 5/100 * ((n : ℚ) - 1))
  else 0

/-- Case-insensitive distinctness of two genre strings. -/
def ciDiff (g h : String) : Prop := strLower g ≠ strLower h

end MixSplitR

/-
Theorems.  Each claim Cn of the specification audit is settled by the theorem
whose doc comment names it; the remaining lemmas are shared infrastructure.
-/

namespace MixSplitR


theorem classify_min_eq (ha hb am tm : Bool) (n : ℕ) (h : (ha || hb) = true) :
    min (99/100 : ℚ) (classifyAgreement ha hb am tm n).2 =
      confFromClass (classifyAgreement ha hb am tm n).1 n := by
  cases ha <;> cases hb <;> cases am <;> cases tm <;>
    simp [classifyAgreement, confFromClass] at h ⊢

theorem sourcesUsed_length (ha hb hi hd hl : Bool) :
    (sourcesUsed ha hb hi hd hl).length = sourcesCount ha hb hi hd hl := by
  cases ha <;> cases hb <;> cases hi <;> cases hd <;> cases hl <;> rfl

theorem merge_sources_len (a : Option AcrResult) (m : Option MbResult)
    (e : Option MbEnhanced) (x : Option ExternalMeta) :
    (merge_identification_results a m e x).sources_used.length =
      (merge_identification_results a m e x).sources_checked := by
  unfold merge_identification_results
  dsimp only
  split <;> exact sourcesUsed_length _ _ _ _ _

theorem merge_conf_eq (a : Option AcrResult) (m : Option MbResult)
    (e : Option MbEnhanced) (x : Option ExternalMeta) :
    (merge_identification_results a m e x).confidence =
      confFromClass (merge_identification_results a m e x).agreement
        (merge_identification_results a m e x).sources_checked := by
  unfold merge_identification_results
  dsimp only
  split
  · simp [confFromClass]
  · next h =>
    exact classify_min_eq _ _ _ _ _ (by revert h; cases hasAcr a <;> cases hasMb m <;> simp)

theorem confFromClass_bounds (s : String) (n : ℕ) :
    0 ≤ confFromClass s n ∧ confFromClass s n ≤ 99/100 := by
  have hn : (0:ℚ) ≤ (n:ℚ) := Nat.cast_nonneg n
  unfold confFromClass
  split_ifs <;>
    refine ⟨?_, ?_⟩ <;>
    first
      | exact min_le_left _ _
      | exact le_min (by norm_num) (by nlinarith)
      | norm_num

theorem confFromClass_mono (s : String) {n1 n2 : ℕ} (h : n1 ≤ n2) :
    confFromClass s n1 ≤ confFromClass s n2 := by
  have hc : (n1:ℚ) ≤ (n2:ℚ) := by exact_mod_cast h
  unfold confFromClass
  split_ifs <;>
    first
      | exact le_rfl
      | exact min_le_min le_rfl (by nlinarith)

/-- C1: for every combination of primary guess, secondary guess and enrichment
bundle, the confidence of the merged record lies in the closed interval
[0, 0.99]; it never reaches 1.00. -/
theorem merge_confidence_in_bounds (a : Option AcrResult) (m : Option MbResult)
    (e : Option MbEnhanced) (x : Option ExternalMeta) :
    0 ≤ (merge_identification_results a m e x).confidence ∧
      (merge_identification_results a m e x).confidence ≤ 99/100 := by
  rw [merge_conf_eq]
  exact confFromClass_bounds _ _

/-- C2: for a fixed agreement class, merging with more corroborating sources
never lowers the confidence: if two merge calls produce the same agreement label
and the first uses at most as many sources as the second, the first confidence
is at most the second. -/
theorem merge_confidence_monotone (a1 : Option AcrResult) (m1 : Option MbResult)
    (e1 : Option MbEnhanced) (x1 : Option ExternalMeta)
    (a2 : Option AcrResult) (m2 : Option MbResult)
    (e2 : Option MbEnhanced) (x2 : Option ExternalMeta)
    (hagr : (merge_identification_results a1 m1 e1 x1).agreement =
      (merge_identification_results a2 m2 e2 x2).agreement)
    (hlen : (merge_identification_results a1 m1 e1 x1).sources_used.length ≤
      (merge_identification_results a2 m2 e2 x2).sources_used.length) :
    (merge_identification_results a1 m1 e1 x1).confidence ≤
      (merge_identification_results a2 m2 e2 x2).confidence := by
  rw [merge_conf_eq, merge_conf_eq, hagr]
  refine confFromClass_mono _ ?_
  rw [← merge_sources_len, ← merge_sources_len]
  exact hlen

/-- Witness for C2: a full-agreement merge of two matching guesses has confidence
0.90 with two sources and no less than that when an iTunes enrichment source is
added. -/
theorem merge_confidence_monotone_witness :
    (merge_identification_results (some { artist := some "a", title := some "t" })
        (some { artist := some "a", title := some "t" }) none none).confidence ≤
      (merge_identification_results (some { artist := some "a", title := some "t" })
        (some { artist := some "a", title := some "t" }) none
        (some { itunes := some { genre := some "House" } })).confidence :=
  merge_confidence_monotone _ _ _ _ _ _ _ _ (by decide) (by decide)

/-- C3: when neither backend guess supplies both artist and title, merge
short-circuits: agreement none, confidence 0, every field empty. -/
theorem merge_none_shortcircuit (a : Option AcrResult) (m : Option MbResult)
    (e : Option MbEnhanced) (x : Option ExternalMeta)
    (h1 : hasAcr a = false) (h2 : hasMb m = false) :
    (merge_identification_results a m e x).agreement = "none" ∧
    (merge_identification_results a m e x).confidence = 0 ∧
    (merge_identification_results a m e x).artist = {} ∧
    (merge_identification_results a m e x).title = {} ∧
    (merge_identification_results a m e x).album = {} ∧
    (merge_identification_results a m e x).label = {} ∧
    (merge_identification_results a m e x).genres = {} ∧
    (merge_identification_results a m e x).release_date = {} ∧
    (merge_identification_results a m e x).isrc = {} ∧
    (merge_identification_results a m e x).bpm = {} := by
  unfold merge_identification_results
  dsimp only
  simp [h1, h2]

/-- Witness for C3: merge(None, None, None, None) is the empty record. -/
theorem merge_none_shortcircuit_witness :
    (merge_identification_results none none none none).agreement = "none" ∧
    (merge_identification_results none none none none).confidence = 0 ∧
    (merge_identification_results none none none none).artist = {} ∧
    (merge_identification_results none none none none).title = {} ∧
    (merge_identification_results none none none none).album = {} ∧
    (merge_identification_results none none none none).label = {} ∧
    (merge_identification_results none none none none).genres = {} ∧
    (merge_identification_results none none none none).release_date = {} ∧
    (merge_identification_results none none none none).isrc = {} ∧
    (merge_identification_results none none none none).bpm = {} :=
  merge_none_shortcircuit none none none none rfl rfl

theorem classify_mem (ha hb am tm : Bool) (n : ℕ) :
    (classifyAgreement ha hb am tm n).1 ∈
      ["full", "partial", "conflict", "acr_only", "mb_only", "none"] := by
  cases ha <;> cases hb <;> cases am <;> cases tm <;> simp [classifyAgreement]

theorem classify_single_acr (am tm : Bool) (n : ℕ) (hn : n ≤ 4) :
    (classifyAgreement true false am tm n).1 = "acr_only" ∧
    min (99/100 : ℚ) (classifyAgreement true false am tm n).2 = 75/100 + 5/100 * ((n:ℚ) - 1) := by
  have hc : (n:ℚ) ≤ 4 := by exact_mod_cast hn
  refine ⟨by simp [classifyAgreement], ?_⟩
  simp only [classifyAgreement, Bool.and_false, Bool.false_and, if_true, if_false,
    Bool.true_and, Bool.false_eq_true, ite_true, ite_false]
  rw [min_eq_right (by nlinarith)]

theorem classify_single_mb (am tm : Bool) (n : ℕ) (hn : n ≤ 4) :
    (classifyAgreement false true am tm n).1 = "mb_only" ∧
    min (99/100 : ℚ) (classifyAgreement false true am tm n).2 = 70/100 + 5/100 * ((n:ℚ) - 1) := by
  have hc : (n:ℚ) ≤ 4 := by exact_mod_cast hn
  refine ⟨by simp [classifyAgreement], ?_⟩
  simp only [classifyAgreement, Bool.and_false, Bool.false_and, if_true, if_false,
    Bool.true_and, Bool.false_eq_true, ite_true, ite_false]
  rw [min_eq_right (by nlinarith)]

theorem sourcesCount_noMb_le (ha hi hd hl : Bool) : sourcesCount ha false hi hd hl ≤ 4 := by
  cases ha <;> cases hi <;> cases hd <;> cases hl <;> decide

theorem sourcesCount_noAcr_le (hb hi hd hl : Bool) : sourcesCount false hb hi hd hl ≤ 4 := by
  cases hb <;> cases hi <;> cases hd <;> cases hl <;> decide

/-- C4: the agreement label of every merged record is one of the six values the
code can store (acr_only / mb_only are the labels the specification calls
single_acr / single_mb); and when exactly one of the primary/secondary guesses
is present, the agreement is the corresponding single-backend label with
confidence 0.75 (primary only) or 0.70 (secondary only) plus 0.05 per extra
contributing source. -/
theorem merge_agreement_enum (a : Option AcrResult) (m : Option MbResult)
    (e : Option MbEnhanced) (x : Option ExternalMeta) :
    ((merge_identification_results a m e x).agreement ∈
      ["full", "partial", "conflict", "acr_only", "mb_only", "none"]) ∧
    (hasAcr a = true → hasMb m = false →
      (merge_identification_results a m e x).agreement = "acr_only" ∧
      (merge_identification_results a m e x).confidence =
        75/100 + 5/100 * (((merge_identification_results a m e x).sources_checked : ℚ) - 1)) ∧
    (hasAcr a = false → hasMb m = true →
      (merge_identification_results a m e x).agreement = "mb_only" ∧
      (merge_identification_results a m e x).confidence =
        70/100 + 5/100 * (((merge_identification_results a m e x).sources_checked : ℚ) - 1)) := by
  refine ⟨?_, ?_, ?_⟩
  · unfold merge_identification_results
    dsimp only
    split
    · simp
    · exact classify_mem _ _ _ _ _
  · intro h1 h2
    unfold merge_identification_results
    dsimp only
    rw [h1, h2]
    simp only [Bool.or_false, Bool.not_true, Bool.false_eq_true, if_false]
    exact classify_single_acr _ _ _ (sourcesCount_noMb_le _ _ _ _)
  · intro h1 h2
    unfold merge_identification_results
    dsimp only
    rw [h1, h2]
    simp only [Bool.false_or, Bool.not_true, Bool.false_eq_true, if_false]
    exact classify_single_mb _ _ _ (sourcesCount_noAcr_le _ _ _ _)

/-- Witness for C4: with only the primary guess present (plus a Deezer
enrichment source), the agreement is acr_only and the confidence is
0.75 + 0.05 x 1 = 0.80. -/
theorem merge_agreement_enum_witness :
    (merge_identification_results (some { artist := some "a", title := some "t" }) none none
        (some { deezer := some { genre := some "House" } })).agreement = "acr_only" ∧
    (merge_identification_results (some { artist := some "a", title := some "t" }) none none
        (some { deezer := some { genre := some "House" } })).confidence =
      75/100 + 5/100 * (((merge_identification_results (some { artist := some "a", title := some "t" })
        none none (some { deezer := some { genre := some "House" } })).sources_checked : ℚ) - 1) :=
  (merge_agreement_enum (some { artist := some "a", title := some "t" }) none none
    (some { deezer := some { genre := some "House" } })).2.1 rfl rfl


theorem dedup_foldl_addend (l : List String) (u seen : List String) :
    ∃ t, t.Sublist l ∧ (l.foldl dedupStep (u, seen)).1 = u ++ t := by
  induction l generalizing u seen with
  | nil => exact ⟨[], List.Sublist.refl _, (List.append_nil u).symm⟩
  | cons g l ih =>
    rw [List.foldl_cons]
    by_cases hc : (g != "" && !(seen.contains (strLower g))) = true
    · rw [show dedupStep (u, seen) g = (u ++ [g], seen ++ [strLower g]) by
        simp only [dedupStep]; rw [if_pos hc]]
      obtain ⟨t, hts, he⟩ := ih (u ++ [g]) (seen ++ [strLower g])
      exact ⟨g :: t, List.Sublist.cons₂ g hts, by simp [he]⟩
    · rw [show dedupStep (u, seen) g = (u, seen) by
        simp only [dedupStep]; rw [if_neg hc]]
      obtain ⟨t, hts, he⟩ := ih u seen
      exact ⟨t, List.Sublist.cons g hts, he⟩

theorem dedup_foldl_pairwise (l : List String) (u seen : List String)
    (hsub : ∀ g ∈ u, strLower g ∈ seen)
    (hp : u.Pairwise ciDiff) :
    (l.foldl dedupStep (u, seen)).1.Pairwise ciDiff := by
  induction l generalizing u seen with
  | nil => exact hp
  | cons g l ih =>
    rw [List.foldl_cons]
    by_cases hc : (g != "" && !(seen.contains (strLower g))) = true
    · rw [show dedupStep (u, seen) g = (u ++ [g], seen ++ [strLower g]) by
        simp only [dedupStep]; rw [if_pos hc]]
      have hg : strLower g ∉ seen := by
        have := (Bool.and_eq_true _ _).mp hc |>.2
        simpa using this
      refine ih (u ++ [g]) (seen ++ [strLower g]) ?_ ?_
      · intro h hm
        rcases List.mem_append.mp hm with h1 | h1
        · exact List.mem_append.mpr (Or.inl (hsub h h1))
        · simp at h1
          subst h1
          simp
      · refine List.pairwise_append.mpr ⟨hp, List.pairwise_singleton _ _, ?_⟩
        intro a ha b hb
        simp at hb
        subst hb
        intro hcontra
        exact hg (hcontra ▸ hsub a ha)
    · rw [show dedupStep (u, seen) g = (u, seen) by
        simp only [dedupStep]; rw [if_neg hc]]
      exact ih u seen hsub hp

theorem dedupGenres_sublist (l : List String) : (dedupGenres l).Sublist l := by
  obtain ⟨t, hts, he⟩ := dedup_foldl_addend l [] []
  unfold dedupGenres
  rw [he]
  simpa using hts

theorem dedupGenres_pairwise (l : List String) : (dedupGenres l).Pairwise ciDiff := by
  unfold dedupGenres
  exact dedup_foldl_pairwise l [] [] (by simp) (by simp)

theorem addGenre_foldl_addend (l : List String) (st : List String × Option String) (src : String) :
    ∃ t, t.Sublist l ∧ (l.foldl (fun st tag => addGenre st tag src) st).1 = st.1 ++ t := by
  induction l generalizing st with
  | nil => exact ⟨[], List.Sublist.refl _, (List.append_nil _).symm⟩
  | cons g l ih =>
    rw [List.foldl_cons]
    by_cases hc : (g != "" && !(lowerMem g st.1)) = true
    · rw [show addGenre st g src = (st.1 ++ [g], pickSource st.2 src) by
        simp only [addGenre]; rw [if_pos hc]]
      obtain ⟨t, hts, he⟩ := ih (st.1 ++ [g], pickSource st.2 src)
      exact ⟨g :: t, List.Sublist.cons₂ g hts, by simp [he]⟩
    · rw [show addGenre st g src = st by
        simp only [addGenre]; rw [if_neg hc]]
      obtain ⟨t, hts, he⟩ := ih st
      exact ⟨t, List.Sublist.cons g hts, he⟩

theorem addOptGenre_addend (st : List String × Option String) (g : Option String) (src : String) :
    ∃ t, t.Sublist g.toList ∧ (addOptGenre st g src).1 = st.1 ++ t := by
  cases g with
  | none => exact ⟨[], by simp, by simp [addOptGenre]⟩
  | some g =>
    by_cases hc : (g != "" && !(lowerMem g st.1)) = true
    · refine ⟨[g], by simp, ?_⟩
      simp only [addOptGenre, addGenre]
      rw [if_pos hc]
    · refine ⟨[], by simp, ?_⟩
      simp only [addOptGenre, addGenre]
      rw [if_neg hc]
      simp

theorem collectGenres_sublist (mbg : List String) (ig dg : Option String) (lt : List String) :
    (collectGenres mbg ig dg lt).1.Sublist (mbg ++ ig.toList ++ dg.toList ++ lt) := by
  unfold collectGenres
  dsimp only
  have h0 : (if mbg.isEmpty then (([] : List String), (none : Option String))
      else (mbg, some "MusicBrainz")).1.Sublist mbg := by
    split <;> simp
  obtain ⟨t1, ht1, he1⟩ := addOptGenre_addend
    (if mbg.isEmpty then (([] : List String), (none : Option String))
      else (mbg, some "MusicBrainz")) ig "iTunes"
  obtain ⟨t2, ht2, he2⟩ := addOptGenre_addend
    (addOptGenre (if mbg.isEmpty then (([] : List String), (none : Option String))
      else (mbg, some "MusicBrainz")) ig "iTunes") dg "Deezer"
  obtain ⟨t3, ht3, he3⟩ := addGenre_foldl_addend lt
    (addOptGenre (addOptGenre (if mbg.isEmpty then (([] : List String), (none : Option String))
      else (mbg, some "MusicBrainz")) ig "iTunes") dg "Deezer") "Last.fm"
  rw [he3, he2, he1]
  have := ((h0.append ht1).append ht2).append ht3
  simpa using this

theorem mergeGenresField_spec (mbg : List String) (ig dg : Option String) (lt used : List String) :
    (mergeGenresField mbg ig dg lt used).value.length ≤ 5 ∧
    (mergeGenresField mbg ig dg lt used).value.Pairwise ciDiff ∧
    (mergeGenresField mbg ig dg lt used).value.Sublist (mbg ++ ig.toList ++ dg.toList ++ lt) := by
  unfold mergeGenresField
  dsimp only
  split
  · exact ⟨by simp, by simp, by simp⟩
  · refine ⟨?_, ?_, ?_⟩
    · simp [List.length_take]
    · exact List.Pairwise.sublist (List.take_sublist _ _) (dedupGenres_pairwise _)
    · exact ((List.take_sublist _ _).trans (dedupGenres_sublist _)).trans
        (collectGenres_sublist mbg ig dg lt)

theorem pickSource_cases (cur : Option String) (src : String) :
    pickSource cur src = some src ∨ pickSource cur src = cur := by
  unfold pickSource
  split <;> simp

theorem addGenre_source_cases (st : List String × Option String) (g src : String) :
    (addGenre st g src).2 = some src ∨ (addGenre st g src).2 = st.2 := by
  unfold addGenre
  split
  · exact pickSource_cases st.2 src
  · simp

theorem addOptGenre_source_cases (st : List String × Option String) (g : Option String)
    (src : String) :
    (addOptGenre st g src).2 = some src ∨ (addOptGenre st g src).2 = st.2 := by
  cases g with
  | none => simp [addOptGenre]
  | some g => exact addGenre_source_cases st g src

theorem foldl_lastfm_source_cases (lt : List String) (st : List String × Option String) :
    (lt.foldl (fun st tag => addGenre st tag "Last.fm") st).2 = some "Last.fm" ∨
      (lt.foldl (fun st tag => addGenre st tag "Last.fm") st).2 = st.2 := by
  induction lt generalizing st with
  | nil => simp
  | cons g lt ih =>
    rw [List.foldl_cons]
    rcases ih (addGenre st g "Last.fm") with h | h
    · exact Or.inl h
    · rw [h]
      exact addGenre_source_cases st g "Last.fm"

theorem collectGenres_source_mem (mbg : List String) (ig dg : Option String) (lt : List String) :
    (collectGenres mbg ig dg lt).2 = none ∨
      (collectGenres mbg ig dg lt).2 ∈
        [some "MusicBrainz", some "iTunes", some "Deezer", some "Last.fm"] := by
  unfold collectGenres
  dsimp only
  have h0 : (if mbg.isEmpty then (([] : List String), (none : Option String))
      else (mbg, some "MusicBrainz")).2 = none ∨
      (if mbg.isEmpty then (([] : List String), (none : Option String))
      else (mbg, some "MusicBrainz")).2 ∈
        [some "MusicBrainz", some "iTunes", some "Deezer", some "Last.fm"] := by
    split <;> simp
  have key : ∀ st : List String × Option String,
      st.2 = none ∨ st.2 ∈ [some "MusicBrainz", some "iTunes", some "Deezer", some "Last.fm"] →
      (lt.foldl (fun st tag => addGenre st tag "Last.fm")
        (addOptGenre (addOptGenre st ig "iTunes") dg "Deezer")).2 = none ∨
      (lt.foldl (fun st tag => addGenre st tag "Last.fm")
        (addOptGenre (addOptGenre st ig "iTunes") dg "Deezer")).2 ∈
        [some "MusicBrainz", some "iTunes", some "Deezer", some "Last.fm"] := by
    intro st hst
    rcases foldl_lastfm_source_cases lt (addOptGenre (addOptGenre st ig "iTunes") dg "Deezer")
      with h3 | h3
    · rw [h3]; simp
    · rw [h3]
      rcases addOptGenre_source_cases (addOptGenre st ig "iTunes") dg "Deezer" with h2 | h2
      · rw [h2]; simp
      · rw [h2]
        rcases addOptGenre_source_cases st ig "iTunes" with h1 | h1
        · rw [h1]; simp
        · rw [h1]; exact hst
  exact key _ h0

theorem addGenre_inv (st : List String × Option String) (g src : String) (hsrc : src ≠ "")
    (h : st.2.getD "" = "" → st.1 = []) :
    (addGenre st g src).2.getD "" = "" → (addGenre st g src).1 = [] := by
  unfold addGenre
  split
  · intro hg
    exfalso
    unfold pickSource at hg
    split at hg
    · exact hsrc (by simpa using hg)
    · next hq => exact hq (by simpa using hg)
  · exact h

theorem addOptGenre_inv (st : List String × Option String) (g : Option String) (src : String)
    (hsrc : src ≠ "") (h : st.2.getD "" = "" → st.1 = []) :
    (addOptGenre st g src).2.getD "" = "" → (addOptGenre st g src).1 = [] := by
  cases g with
  | none => exact h
  | some g => exact addGenre_inv st g src hsrc h

theorem foldl_lastfm_inv (lt : List String) (st : List String × Option String)
    (h : st.2.getD "" = "" → st.1 = []) :
    (lt.foldl (fun st tag => addGenre st tag "Last.fm") st).2.getD "" = "" →
      (lt.foldl (fun st tag => addGenre st tag "Last.fm") st).1 = [] := by
  induction lt generalizing st with
  | nil => exact h
  | cons g lt ih =>
    rw [List.foldl_cons]
    exact ih (addGenre st g "Last.fm") (addGenre_inv st g "Last.fm" (by decide) h)

theorem collectGenres_inv (mbg : List String) (ig dg : Option String) (lt : List String) :
    (collectGenres mbg ig dg lt).2.getD "" = "" → (collectGenres mbg ig dg lt).1 = [] := by
  unfold collectGenres
  dsimp only
  refine foldl_lastfm_inv lt _ (addOptGenre_inv _ dg "Deezer" (by decide)
    (addOptGenre_inv _ ig "iTunes" (by decide) ?_))
  split
  · intro _; rfl
  · intro hq; simp at hq

theorem mergeGenresField_plus_iff (mbg : List String) (ig dg : Option String)
    (lt used : List String) :
    ((∃ s, (mergeGenresField mbg ig dg lt used).source = some s ∧ s.data.getLast? = some '+') ↔
      (1 < used.length ∧ 1 < (mergeGenresField mbg ig dg lt used).value.length)) ∧
    (∀ s, (mergeGenresField mbg ig dg lt used).source = some s → s.data.getLast? ≠ some '+' →
      s ∈ ["MusicBrainz", "iTunes", "Deezer", "Last.fm"]) := by
  unfold mergeGenresField
  dsimp only
  split
  · refine ⟨⟨fun h => ?_, fun h => ?_⟩, fun s hs => ?_⟩
    · obtain ⟨s, hs, _⟩ := h
      simp at hs
    · simp at h
    · simp at hs
  · next hne =>
    have hgetd : (collectGenres mbg ig dg lt).2.getD "" ≠ "" := by
      intro hq
      rw [collectGenres_inv mbg ig dg lt hq] at hne
      simp at hne
    have hbase : (if ((collectGenres mbg ig dg lt).2.getD "" == "") = true then "Unknown"
        else (collectGenres mbg ig dg lt).2.getD "") = (collectGenres mbg ig dg lt).2.getD "" := by
      rw [if_neg]
      simpa using hgetd
    have hmem : (collectGenres mbg ig dg lt).2.getD "" ∈
        (["MusicBrainz", "iTunes", "Deezer", "Last.fm"] : List String) := by
      rcases collectGenres_source_mem mbg ig dg lt with h | h
      · exact absurd (by rw [h]; rfl) hgetd
      · simp only [List.mem_cons, List.not_mem_nil, or_false] at h
        rcases h with h | h | h | h <;> rw [h] <;> simp
    have hlast : ((collectGenres mbg ig dg lt).2.getD "").data.getLast? ≠ some '+' := by
      have hmem2 := hmem
      simp only [List.mem_cons, List.not_mem_nil, or_false] at hmem2
      rcases hmem2 with h | h | h | h <;> rw [h] <;> decide
    rw [hbase]
    split
    · next hcond =>
      have hu : 1 < used.length := by
        have := (Bool.and_eq_true _ _).mp hcond |>.1
        simpa using this
      have hq : 1 < (dedupGenres (collectGenres mbg ig dg lt).1).length := by
        have := (Bool.and_eq_true _ _).mp hcond |>.2
        simpa using this
      refine ⟨iff_of_true ?_ ?_, fun s hs hp => ?_⟩
      · exact ⟨(collectGenres mbg ig dg lt).2.getD "" ++ "+", rfl, by
          simp only [String.data_append]
          exact List.getLast?_concat _⟩
      · exact ⟨hu, by simpa [List.length_take] using hq⟩
      · exfalso
        apply hp
        have hseq : s = (collectGenres mbg ig dg lt).2.getD "" ++ "+" := by
          simpa using hs.symm
        rw [hseq]
        simp only [String.data_append]
        exact List.getLast?_concat _
    · next hcond =>
      have hnand : ¬(1 < used.length ∧
          1 < (dedupGenres (collectGenres mbg ig dg lt).1).length) := by
        intro ⟨h1, h2⟩
        apply hcond
        refine (Bool.and_eq_true _ _).mpr ⟨?_, ?_⟩ <;> simpa
      refine ⟨iff_of_false ?_ ?_, fun s hs _ => ?_⟩
      · rintro ⟨s, hs, hp⟩
        have hseq : s = (collectGenres mbg ig dg lt).2.getD "" := by simpa using hs.symm
        rw [hseq] at hp
        exact hlast hp
      · intro ⟨h1, h2⟩
        exact hnand ⟨h1, by simpa [List.length_take] using h2⟩
      · have hseq : s = (collectGenres mbg ig dg lt).2.getD "" := by simpa using hs.symm
        rw [hseq]
        exact hmem

/-- C6: the genres value of every merged record has at most 5 entries, no two of
which agree case-insensitively, and is drawn (in first-seen order) from the
union of the enrichment sources MusicBrainz, iTunes, Deezer and Last.fm. -/
theorem merge_genres_cap (a : Option AcrResult) (m : Option MbResult)
    (e : Option MbEnhanced) (x : Option ExternalMeta) :
    (merge_identification_results a m e x).genres.value.length ≤ 5 ∧
    (merge_identification_results a m e x).genres.value.Pairwise ciDiff ∧
    (merge_identification_results a m e x).genres.value.Sublist
      (mbGenres e ++ (itunesGenre x).toList ++ (deezerGenre x).toList ++ lastfmTags x) := by
  unfold merge_identification_results
  dsimp only
  split
  · exact ⟨by simp, by simp, by simp⟩
  · exact mergeGenresField_spec _ _ _ _ _

/-- C7 counterexample: with both backends agreeing on presence (two entries in
sources_used) but every genre supplied by the single source MusicBrainz, the
genres source is still the plus-suffixed "MusicBrainz+"; the claim that the
suffix appears exactly when more than one source contributed genres is false. -/
theorem merge_genres_plus_counterexample :
    (merge_identification_results (some { artist := some "a", title := some "t" })
        (some { artist := some "b", title := some "u" })
        (some { genres := ["House", "Techno"] }) none).genres =
      { value := ["House", "Techno"], source := some "MusicBrainz+" } ∧
    itunesGenre none = none ∧ deezerGenre none = none ∧ lastfmTags none = [] :=
  ⟨rfl, rfl, rfl, rfl⟩

/-- C7 (amended): the genres source carries a plus suffix exactly when the merged
record drew on more than one source overall (sources_used has more than one
entry) and more than one unique genre resulted; a non-suffixed source is always
the bare name of one of the genre-contributing services. -/
theorem merge_genres_plus_suffix (a : Option AcrResult) (m : Option MbResult)
    (e : Option MbEnhanced) (x : Option ExternalMeta) :
    ((∃ s, (merge_identification_results a m e x).genres.source = some s ∧
        s.data.getLast? = some '+') ↔
      (1 < (merge_identification_results a m e x).sources_used.length ∧
        1 < (merge_identification_results a m e x).genres.value.length)) ∧
    (∀ s, (merge_identification_results a m e x).genres.source = some s →
      s.data.getLast? ≠ some '+' →
      s ∈ ["MusicBrainz", "iTunes", "Deezer", "Last.fm"]) := by
  unfold merge_identification_results
  dsimp only
  split
  · refine ⟨⟨fun h => ?_, fun h => ?_⟩, fun s hs => ?_⟩
    · obtain ⟨s, hs, _⟩ := h
      simp at hs
    · obtain ⟨_, h2⟩ := h
      simp at h2
    · simp at hs
  · exact mergeGenresField_plus_iff _ _ _ _ _

/-- Witness for C7 (amended): a record whose only used source is the primary
backend while MusicBrainz enhanced metadata supplies one genre gets the bare,
non-suffixed source name MusicBrainz. -/
theorem merge_genres_plus_suffix_witness :
    ("MusicBrainz" : String) ∈ (["MusicBrainz", "iTunes", "Deezer", "Last.fm"] : List String) :=
  (merge_genres_plus_suffix (some { artist := some "a", title := some "t" }) none
    (some { genres := ["House"] }) none).2 "MusicBrainz" rfl (by decide)


theorem mergeAlbumField_spec (mb acr it dz : Option String) :
    (mergeAlbumField mb acr it dz).value ≠ none ∧
    (suppliesAlbum mb = false → suppliesAlbum acr = false → strTruthy it = false →
      strTruthy dz = false →
      mergeAlbumField mb acr it dz = { value := some "Unknown Album", source := none }) ∧
    ((mergeAlbumField mb acr it dz).source = some "MusicBrainz" →
      (mergeAlbumField mb acr it dz).value ≠ some "Unknown Album") ∧
    ((mergeAlbumField mb acr it dz).source = some "ACRCloud" →
      (mergeAlbumField mb acr it dz).value ≠ some "Unknown Album") := by
  unfold mergeAlbumField
  split_ifs with h1 h2 h3 h4
  · rcases mb with _ | s
    · simp [suppliesAlbum, strTruthy] at h1
    · have hne := (Bool.and_eq_true _ _).mp h1 |>.2
      refine ⟨?_, ?_, ?_, ?_⟩
      · simp
      · intro hf _ _ _
        rw [hf] at h1
        cases h1
      · intro _ hq
        simp only [Option.some.injEq] at hq
        rw [hq] at hne
        simp at hne
      · intro hs
        exact absurd (Option.some.inj hs) (by decide)
  · rcases acr with _ | s
    · simp [suppliesAlbum, strTruthy] at h2
    · have hne := (Bool.and_eq_true _ _).mp h2 |>.2
      refine ⟨?_, ?_, ?_, ?_⟩
      · simp
      · intro _ hf _ _
        rw [hf] at h2
        cases h2
      · intro hs
        exact absurd (Option.some.inj hs) (by decide)
      · intro _ hq
        simp only [Option.some.injEq] at hq
        rw [hq] at hne
        simp at hne
  · refine ⟨?_, ?_, ?_, ?_⟩
    · rcases it with _ | s
      · simp [strTruthy] at h3
      · simp
    · intro _ _ hf _
      rw [hf] at h3
      cases h3
    · intro hs
      exact absurd (Option.some.inj hs) (by decide)
    · intro hs
      exact absurd (Option.some.inj hs) (by decide)
  · refine ⟨?_, ?_, ?_, ?_⟩
    · rcases dz with _ | s
      · simp [strTruthy] at h4
      · simp
    · intro _ _ _ hf
      rw [hf] at h4
      cases h4
    · intro hs
      exact absurd (Option.some.inj hs) (by decide)
    · intro hs
      exact absurd (Option.some.inj hs) (by decide)
  · refine ⟨?_, ?_, ?_, ?_⟩
    · simp
    · intro _ _ _ _
      rfl
    · intro hs
      simp at hs
    · intro hs
      simp at hs

/-- C10: whenever a merged record has an agreement other than none, the album
value is never None; when no backend or catalog source supplies a usable album
(a backend album equal to the placeholder Unknown Album counts as unusable),
the value is the literal Unknown Album with source None; and a backend album
equal to Unknown Album is never attributed to that backend. -/
theorem merge_album_spec (a : Option AcrResult) (m : Option MbResult)
    (e : Option MbEnhanced) (x : Option ExternalMeta) :
    ((merge_identification_results a m e x).agreement ≠ "none" →
      (merge_identification_results a m e x).album.value ≠ none) ∧
    (suppliesAlbum (mbAlbum e) = false → suppliesAlbum (acrAlbum a) = false →
      strTruthy (itunesAlbum x) = false → strTruthy (deezerAlbum x) = false →
      (hasAcr a || hasMb m) = true →
      (merge_identification_results a m e x).album =
        { value := some "Unknown Album", source := none }) ∧
    ((merge_identification_results a m e x).album.source = some "MusicBrainz" →
      (merge_identification_results a m e x).album.value ≠ some "Unknown Album") ∧
    ((merge_identification_results a m e x).album.source = some "ACRCloud" →
      (merge_identification_results a m e x).album.value ≠ some "Unknown Album") := by
  unfold merge_identification_results
  dsimp only
  split
  · next hg =>
    refine ⟨fun h => absurd rfl h, fun _ _ _ _ hab => ?_, fun hs => ?_, fun hs => ?_⟩
    · rw [hab] at hg
      cases hg
    · simp at hs
    · simp at hs
  · obtain ⟨h1, h2, h3, h4⟩ :=
      mergeAlbumField_spec (mbAlbum e) (acrAlbum a) (itunesAlbum x) (deezerAlbum x)
    exact ⟨fun _ => h1, fun p q r t _ => h2 p q r t, h3, h4⟩

/-- Witness for C10: a primary-only guess whose album is the placeholder string
merges to the album value Unknown Album with no source attribution. -/
theorem merge_album_spec_witness :
    (merge_identification_results
        (some { artist := some "a", title := some "t", album := some "Unknown Album" })
        none none none).album = { value := some "Unknown Album", source := none } :=
  (merge_album_spec
    (some { artist := some "a", title := some "t", album := some "Unknown Album" })
    none none none).2.1 rfl rfl rfl rfl rfl

/-- C8: the open-database (AcoustID) adapter accepts only candidates whose
reported score is strictly greater than 0.5: any returned hit has score above
0.5, and if every candidate scores at most 0.5 the adapter returns None. -/
theorem acoustid_score_threshold (results : List AcoustIdCandidate) :
    (∀ hit, identify_with_acoustid_process results = some hit → 1/2 < hit.score) ∧
    ((∀ c ∈ results, c.score ≤ 1/2) → identify_with_acoustid_process results = none) := by
  induction results with
  | nil =>
    refine ⟨fun hit h => ?_, fun _ => rfl⟩
    simp [identify_with_acoustid_process] at h
  | cons c rest ih =>
    constructor
    · intro hit h
      rw [identify_with_acoustid_process] at h
      split at h
      · next hc =>
        cases h
        simpa using hc
      · exact ih.1 hit h
    · intro hall
      rw [identify_with_acoustid_process]
      split
      · next hc =>
        exact absurd hc (not_lt.mpr (hall c (List.mem_cons_self c rest)))
      · exact ih.2 (fun d hd => hall d (List.mem_cons_of_mem c hd))

/-- Witness for C8: a candidate list scoring 0.45 and exactly 0.5 yields None. -/
theorem acoustid_score_threshold_witness :
    identify_with_acoustid_process
      [{ score := 45/100, recording_id := "r1", title := "t1", artist := "a1" },
       { score := 1/2, recording_id := "r2", title := "t2", artist := "a2" }] = none :=
  (acoustid_score_threshold
    [{ score := 45/100, recording_id := "r1", title := "t1", artist := "a1" },
     { score := 1/2, recording_id := "r2", title := "t2", artist := "a2" }]).2
    (by
      intro c hc
      simp only [List.mem_cons, List.not_mem_nil, or_false] at hc
      rcases hc with h | h <;> rw [h]
      norm_num)

/-- C9: the local BPM estimator's octave correction doubles every raw estimate
below 70, halves every estimate above 180, and leaves the rest unchanged; in
particular 65 becomes 130, 200 becomes 100 and 110 stays 110. -/
theorem bpm_octave_correction_spec (bpm : ℕ) :
    (bpm < 70 → bpm_octave_correction bpm = bpm * 2) ∧
    (bpm > 180 → bpm_octave_correction bpm = bpm / 2) ∧
    (70 ≤ bpm → bpm ≤ 180 → bpm_octave_correction bpm = bpm) ∧
    bpm_octave_correction 65 = 130 ∧ bpm_octave_correction 200 = 100 ∧
    bpm_octave_correction 110 = 110 := by
  refine ⟨fun h => ?_, fun h => ?_, fun h1 h2 => ?_, rfl, rfl, rfl⟩
  · rw [bpm_octave_correction, if_pos h]
  · rw [bpm_octave_correction, if_neg (by omega), if_pos h]
  · rw [bpm_octave_correction, if_neg (by omega), if_neg (by omega)]

/-- Witness for C9: the raw estimate 65 is below 70 and is doubled to 130. -/
theorem bpm_octave_correction_spec_witness : bpm_octave_correction 65 = 65 * 2 :=
  (bpm_octave_correction_spec 65).1 (by norm_num)

/-- C5 (divergence demonstration): the identification phase of
process_single_track wraps the commercial-backend call in no try/except, so a
raised exception (modelled as Except.error) propagates out unchanged instead of
entering the fallback chain; by contrast, a response carrying a non-zero status
code does reach the Shazam-then-AcoustID fallback chain and yields a usable
outcome. -/
theorem process_single_track_acr_exception_propagates :
    process_single_track_identification (some 200000) (Except.error "Timeout") true true
      (some { artist := "sa", title := "st" }) true none = Except.error "Timeout" ∧
    process_single_track_identification (some 200000)
      (Except.ok { status_code := 3000, music := [] }) true true
      (some { artist := "sa", title := "st" }) true none =
      Except.ok (TrackOutcome.identified none
        (some { artist := some "sa", title := some "st" })) :=
  ⟨rfl, rfl⟩

end MixSplitR
